import Mathlib

/-!
Verification of the PLUS+ calculator loan pricing engine.

The repository contains several iterations of a `LoanCalculator` React
component.  Each iteration is a pure arithmetic pipeline over static rate
tables; we embed those pipelines here, rational arithmetic standing for
JavaScript number arithmetic (every computation involved is exact decimal
or rational), and the stateful `setResults` update modelled by explicit
state passing (`prev` is the results state before the call).

Variants embedded:
  * the current variant (`src/components/LoanCalculator.tsx`), the
    "arbitrage style" engine: `monthly = currencyRate * term - priceMmk`;
  * `VariantB`, the oldest iteration: only its one-bracket admin-fee rule
    is needed here;
  * `VariantC`, the percentage-deposit iteration: PMT formula on
    `max(0, priceMmk - depositMmk)`, minimum salary `monthly / 0.20`
    floored to the nearest 1000;
  * `VariantD`, the absolute-deposit iteration: PMT on the monthly rate
    `rate / 12` applied to the unclamped `priceMmk - depositMmk`,
    minimum salary `monthly / 0.25` floored to the nearest 1000.
-/

/-- Results record set by `calculateLoan` in the current variant and in
the C and D variants: monthlyRepayment, deductionAmount, adminFee,
deductionRate, minSalaryRequirement (in this order). -/
structure LoanResults where
  monthlyRepayment : ℚ
  deductionAmount : ℚ
  adminFee : ℚ
  deductionRate : ℚ
  minSalaryRequirement : ℚ
  deriving DecidableEq, Repr

/-- Initial `results` state of the component: every field starts at 0. -/
def initialResults : LoanResults := ⟨0, 0, 0, 0, 0⟩

/-- Business rules for deduction rates, `getDeductionRate` of the current
variant (LoanCalculator.tsx lines 9-16) and of the C and D variants, which
are textually identical: the ranges `term >= 3 && term <= 6` and
`term >= 9 && term <= 12` select the two rate rows, everything else falls
through to 0. -/
def getDeductionRate (term : ℕ) (method : String) : ℚ :=
  if 3 ≤ term ∧ term ≤ 6 then
    if method = "Salary Deduction" then 0.0376 else 0.041
  else if 9 ≤ term ∧ term ≤ 12 then
    if method = "Salary Deduction" then 0.0261 else 0.0279
  else 0

/-- One entry of the `adminFeeRanges` array of the expanded admin-fee
table: an upper price bound (`none` models the JavaScript `Infinity`
bound of the last entry) and the two fee amounts per repayment method. -/
structure FeeRange where
  max : Option ℚ
  salary : ℚ
  yoma : ℚ
  deriving DecidableEq, Repr

/-- The loop condition `priceMmk <= range.max`: every rational price is
below `Infinity`, otherwise compare against the bound. -/
def acceptsPrice (r : FeeRange) (p : ℚ) : Bool :=
  match r.max with
  | none => true
  | some b => decide (p ≤ b)

/-- The fee a bracket charges:
`method === 'Salary Deduction' ? range.salary : range.yoma`. -/
def feeFor (method : String) (r : FeeRange) : ℚ :=
  if method = "Salary Deduction" then r.salary else r.yoma

/-- The `for (const range of adminFeeRanges)` loop of `getAdminFee`:
return at the first bracket whose bound accepts the price, and fall
through to the trailing `return 0` when no bracket does. -/
def adminFeeLookup (p : ℚ) (method : String) : List FeeRange → ℚ
  | [] => 0
  | r :: rest =>
    if acceptsPrice r p then feeFor method r
    else adminFeeLookup p method rest

/-- The `adminFeeRanges` array of the expanded table (LoanCalculator.tsx
lines 20-35, identical in the C and D variants). -/
def adminFeeRanges : List FeeRange :=
  [⟨some 100000, 5000, 5300⟩,
   ⟨some 300000, 8000, 8400⟩,
   ⟨some 500000, 13500, 14200⟩,
   ⟨some 1000000, 18500, 19500⟩,
   ⟨some 2000000, 30000, 31500⟩,
   ⟨some 3000000, 45000, 47300⟩,
   ⟨some 4000000, 60000, 63000⟩,
   ⟨some 5000000, 80000, 84000⟩,
   ⟨some 6000000, 100000, 105000⟩,
   ⟨some 7000000, 140000, 147000⟩,
   ⟨some 8000000, 160000, 168000⟩,
   ⟨some 10000000, 180000, 189000⟩,
   ⟨some 20000000, 230000, 241500⟩,
   ⟨none, 400000, 420000⟩]

/-- Business rules for admin fees, the expanded 14-bracket `getAdminFee`
(LoanCalculator.tsx lines 19-43, identical in the C and D variants):
first-match lookup over `adminFeeRanges`. -/
def getAdminFee (priceMmk : ℚ) (method : String) : ℚ :=
  adminFeeLookup priceMmk method adminFeeRanges

/-- Helper `roundDownToNearest1000` shared by the current, C and D
variants: `Math.floor(num / 1000) * 1000`. -/
def roundDownToNearest1000 (num : ℚ) : ℚ :=
  (Int.floor (num / 1000) : ℚ) * 1000

/-- A JavaScript number is either an ordinary (here: rational) value or
NaN; NaN is what `number * undefined` evaluates to. -/
inductive JSNum where
  | num (q : ℚ)
  | nan
  deriving DecidableEq, Repr

namespace Current

/-- Exchange-rate record `EXCHANGE_RATES` of the current variant
(LoanCalculator.tsx lines 46-53).  A JavaScript `Record` lookup on an
absent key yields `undefined`, modelled as `none`. -/
def EXCHANGE_RATES : String → Option ℚ := fun c =>
  if c = "FX" then some 5500
  else if c = "USD" then some 6200
  else if c = "EUR" then some 6200
  else if c = "THB" then some 180
  else if c = "SGD" then some 4000
  else if c = "MMK" then some 1
  else none

/-- The MMK price computation of the current variant (lines 71-78):
`Number(productPrice) * EXCHANGE_RATES[currency]`.  When the currency
code is absent from the record the lookup yields `undefined` and the
multiplication evaluates to NaN; no exception is thrown. -/
def convertToBase (amount : ℚ) (currency : String) : JSNum :=
  match EXCHANGE_RATES currency with
  | some r => JSNum.num (amount * r)
  | none => JSNum.nan

/-- Currency codes offered by the current variant's currency selector;
each of them is a key of `EXCHANGE_RATES`. -/
inductive Currency where
  | FX | USD | EUR | SGD | THB | MMK
  deriving DecidableEq, Repr

/-- Exchange rate of a selectable currency, the value `EXCHANGE_RATES`
holds for its code. -/
def exchangeRate : Currency → ℚ
  | .FX => 5500
  | .USD => 6200
  | .EUR => 6200
  | .THB => 180
  | .SGD => 4000
  | .MMK => 1

/-- The current variant's `calculateLoan` (lines 86-113), Strategy E.
The guard `if (!priceMmk || priceMmk <= 0) return;` leaves the previous
results in place; otherwise
`monthlyRepayment = currencyRate * term - priceMmk`, the minimum salary
is `roundDownToNearest1000(monthlyRepayment * 0.25)` when the monthly
repayment is positive and 0 otherwise, and the deduction fields and the
admin fee are computed from the MMK price. -/
def calculateLoan (term : ℕ) (method : String) (currency : Currency)
    (priceMmk : ℚ) (prev : LoanResults) : LoanResults :=
  if priceMmk ≤ 0 then prev
  else
    let currencyRate := exchangeRate currency
    let monthlyRepayment := currencyRate * (term : ℚ) - priceMmk
    let minSalaryRequirement :=
      if 0 < monthlyRepayment then roundDownToNearest1000 (monthlyRepayment * 0.25)
      else 0
    let deductionRate := getDeductionRate term method
    let deductionAmount := priceMmk * deductionRate
    let adminFee := getAdminFee priceMmk method
    ⟨monthlyRepayment, deductionAmount, adminFee, deductionRate, minSalaryRequirement⟩

end Current

namespace VariantB

/-- Admin-fee rule of the earliest iteration (src/unnamed/part_001 lines
19-24): a single bracket up to 100000, then the trailing `return 0`
("Can be expanded for other price ranges"). -/
def getAdminFee (priceMmk : ℚ) (method : String) : ℚ :=
  if priceMmk ≤ 100000 then (if method = "Salary Deduction" then 5000 else 5300)
  else 0

end VariantB

namespace VariantC

/-- The `pmt` helper of the percentage-deposit iteration
(src/unnamed/part_001 lines 371-376): zero term yields 0, zero rate
yields `pv / nper`, otherwise the annuity formula with the whole-of-term
rate. -/
def pmt (rate : ℚ) (nper : ℕ) (pv : ℚ) : ℚ :=
  if nper = 0 then 0
  else if rate = 0 then pv / (nper : ℚ)
  else (pv * rate) / (1 - (1 + rate) ^ (-(nper : ℤ)))

/-- Financed principal of the C iteration (line 387):
`Math.max(0, priceMmk - depositMmk)`. -/
def principal (priceMmk depositMmk : ℚ) : ℚ :=
  max 0 (priceMmk - depositMmk)

/-- The C iteration's `calculateLoan` (lines 380-407), Strategy C.  On a
non-positive MMK price it explicitly zeroes every results field;
otherwise it applies `pmt` to the clamped principal, reports the clamped
total interest as the deduction amount, and floors `monthly / 0.20` to
the nearest 1000 as the minimum salary. -/
def calculateLoan (term : ℕ) (method : String) (priceMmk depositMmk : ℚ)
    (_prev : LoanResults) : LoanResults :=
  if priceMmk ≤ 0 then ⟨0, 0, 0, 0, 0⟩
  else
    let adminFee := getAdminFee priceMmk method
    let p := principal priceMmk depositMmk
    let deductionRate := getDeductionRate term method
    let monthlyRepayment := pmt deductionRate term p
    let totalPaid := monthlyRepayment * (term : ℚ)
    let totalInterest := max 0 (totalPaid - p - adminFee)
    let minSalaryRequirement := roundDownToNearest1000 (monthlyRepayment / 0.20)
    ⟨monthlyRepayment, totalInterest, adminFee, deductionRate, minSalaryRequirement⟩

end VariantC

namespace VariantD

/-- Financed principal of the D iteration (line 732):
`priceMmk - depositMmk`, with no clamp. -/
def principal (priceMmk depositMmk : ℚ) : ℚ :=
  priceMmk - depositMmk

/-- The D iteration's `calculateLoan` (lines 722-764), Strategy D.  The
guard `if (!priceMmk || priceMmk <= 0) return;` leaves the previous
results in place.  Otherwise the annual rate is divided by 12, the
annuity formula (or plain division when the monthly rate is 0) is
applied to the unclamped principal, and `monthly / 0.25` is floored to
the nearest 1000 as the minimum salary. -/
def calculateLoan (term : ℕ) (method : String) (priceMmk depositMmk : ℚ)
    (prev : LoanResults) : LoanResults :=
  if priceMmk ≤ 0 then prev
  else
    let annualRate := getDeductionRate term method
    let monthlyRate := annualRate / 12
    let p := principal priceMmk depositMmk
    let monthlyRepayment :=
      if monthlyRate = 0 then p / (term : ℚ)
      else (p * monthlyRate) / (1 - (1 + monthlyRate) ^ (-(term : ℤ)))
    let minSalaryRequirement := roundDownToNearest1000 (monthlyRepayment / 0.25)
    let deductionRate := getDeductionRate term method
    let deductionAmount := priceMmk * deductionRate
    let adminFee := getAdminFee priceMmk method
    ⟨monthlyRepayment, deductionAmount, adminFee, deductionRate, minSalaryRequirement⟩

end VariantD

/-- Error taxonomy of the specification's section 7. -/
inductive ConvError where
  | InvalidCurrency
  deriving DecidableEq, Repr

/-- Currency conversion as the specification's sections 4.1 and 7
describe it, for comparison with `Current.convertToBase`: an unknown
currency code is a programming error surfaced loudly as
`InvalidCurrency`. -/
def toBaseCurrencySpec (amount : ℚ) (currency : String) : Except ConvError ℚ :=
  match Current.EXCHANGE_RATES currency with
  | some r => Except.ok (amount * r)
  | none => Except.error ConvError.InvalidCurrency

/-- Flooring to the nearest 1000 never exceeds its argument. -/
theorem roundDownToNearest1000_le (x : ℚ) : roundDownToNearest1000 x ≤ x := by
  unfold roundDownToNearest1000
  have h : ((Int.floor (x / 1000) : ℚ)) ≤ x / 1000 := Int.floor_le _
  have h2 : ((Int.floor (x / 1000) : ℚ)) * 1000 ≤ (x / 1000) * 1000 :=
    mul_le_mul_of_nonneg_right h (by norm_num)
  calc ((Int.floor (x / 1000) : ℚ)) * 1000 ≤ (x / 1000) * 1000 := h2
    _ = x := by field_simp

/-- Flooring to the nearest 1000 always produces a multiple of 1000. -/
theorem roundDownToNearest1000_multiple (x : ℚ) :
    ∃ k : ℤ, roundDownToNearest1000 x = 1000 * (k : ℚ) :=
  ⟨Int.floor (x / 1000), by unfold roundDownToNearest1000; ring⟩

/-- The annuity payment of a zero principal is zero whatever the rate. -/
theorem pmt_pv_zero (rate : ℚ) (nper : ℕ) : VariantC.pmt rate nper 0 = 0 := by
  unfold VariantC.pmt
  split_ifs <;> simp

/-- A smaller price passes every bracket bound a larger price passes. -/
theorem acceptsPrice_antitone {p1 p2 : ℚ} (h : p1 ≤ p2) :
    ∀ r : FeeRange, acceptsPrice r p2 = true → acceptsPrice r p1 = true := by
  rintro ⟨mx, s, y⟩ h2
  cases mx with
  | none => rfl
  | some b =>
    simp only [acceptsPrice, decide_eq_true_eq] at h2 ⊢
    linarith

/-- A bracket with the `Infinity` bound accepts every price. -/
theorem acceptsPrice_of_none {r : FeeRange} (hr : r.max = none) (q : ℚ) :
    acceptsPrice r q = true := by
  unfold acceptsPrice
  rw [hr]

/-- A table containing an `Infinity` bracket accepts every price
somewhere. -/
theorem exists_accepts_of_none {l : List FeeRange} (hl : ∃ r ∈ l, r.max = none)
    (q : ℚ) : ∃ r ∈ l, acceptsPrice r q = true := by
  rcases hl with ⟨r, hr, hnone⟩
  exact ⟨r, hr, acceptsPrice_of_none hnone q⟩

/-- A lower bound on every fee of a table bounds its lookup result, as
long as the price is accepted somewhere. -/
theorem le_adminFeeLookup (m : String) (p : ℚ) (c : ℚ) :
    ∀ l : List FeeRange, (∀ r ∈ l, c ≤ feeFor m r) →
      (∃ r ∈ l, acceptsPrice r p = true) → c ≤ adminFeeLookup p m l := by
  intro l
  induction l with
  | nil => rintro _ ⟨r, hr, _⟩; exact absurd hr (List.not_mem_nil r)
  | cons r rest ih =>
    rintro hall ⟨w, hw, hacc⟩
    unfold adminFeeLookup
    by_cases h : acceptsPrice r p = true
    · rw [if_pos h]; exact hall r (List.mem_cons_self r rest)
    · rw [if_neg h]
      refine ih (fun x hx => hall x (List.mem_cons_of_mem r hx)) ⟨w, ?_, hacc⟩
      rcases List.mem_cons.mp hw with rfl | hw2
      · exact absurd hacc h
      · exact hw2

/-- First-match bracket lookup is monotone in the price whenever the fee
amounts grow along the table and a catch-all bracket ends it. -/
theorem adminFeeLookup_mono (m : String) {p1 p2 : ℚ} (h : p1 ≤ p2) :
    ∀ l : List FeeRange,
      l.Pairwise (fun a b => feeFor m a ≤ feeFor m b) →
      (∃ r ∈ l, r.max = none) →
      adminFeeLookup p1 m l ≤ adminFeeLookup p2 m l := by
  intro l
  induction l with
  | nil => intro _ _; exact le_refl _
  | cons r rest ih =>
    intro hpw hcatch
    unfold adminFeeLookup
    by_cases h2 : acceptsPrice r p2 = true
    · rw [if_pos h2, if_pos (acceptsPrice_antitone h r h2)]
    · have hrmax : r.max ≠ none := fun hn => h2 (acceptsPrice_of_none hn p2)
      have htail : ∃ w ∈ rest, w.max = none := by
        rcases hcatch with ⟨w, hw, hnone⟩
        rcases List.mem_cons.mp hw with rfl | hw2
        · exact absurd hnone hrmax
        · exact ⟨w, hw2, hnone⟩
      rw [if_neg h2]
      by_cases h1 : acceptsPrice r p1 = true
      · rw [if_pos h1]
        exact le_adminFeeLookup m p2 _ rest
          (fun x hx => (List.pairwise_cons.mp hpw).1 x hx)
          (exists_accepts_of_none htail p2)
      · rw [if_neg h1]
        exact ih (List.pairwise_cons.mp hpw).2 htail

/-- When every bracket charges the salary method at most what it charges
any other method, the lookup does too. -/
theorem adminFeeLookup_salary_le (p : ℚ) (m : String)
    (hm : m ≠ "Salary Deduction") :
    ∀ l : List FeeRange, (∀ r ∈ l, r.salary ≤ r.yoma) →
      adminFeeLookup p "Salary Deduction" l ≤ adminFeeLookup p m l := by
  intro l
  induction l with
  | nil => intro _; exact le_refl _
  | cons r rest ih =>
    intro hall
    unfold adminFeeLookup
    by_cases h : acceptsPrice r p = true
    · rw [if_pos h, if_pos h]
      unfold feeFor
      rw [if_pos rfl, if_neg hm]
      exact hall r (List.mem_cons_self r rest)
    · rw [if_neg h, if_neg h]
      exact ih (fun x hx => hall x (List.mem_cons_of_mem r hx))

/-- In the expanded table the fee amounts grow bracket by bracket, for
either method. -/
theorem adminFeeRanges_pairwise (m : String) :
    adminFeeRanges.Pairwise (fun a b => feeFor m a ≤ feeFor m b) := by
  by_cases hm : m = "Salary Deduction" <;>
    simp [adminFeeRanges, feeFor, hm] <;> norm_num

/-- The expanded table ends in the `Infinity` bracket. -/
theorem adminFeeRanges_catchall : ∃ r ∈ adminFeeRanges, r.max = none :=
  ⟨⟨none, 400000, 420000⟩, by simp [adminFeeRanges], rfl⟩

/-- Every bracket of the expanded table charges the salary method at
most the other method's fee. -/
theorem adminFeeRanges_salary_le_yoma : ∀ r ∈ adminFeeRanges, r.salary ≤ r.yoma := by
  intro r hr
  fin_cases hr <;> norm_num

/-- C1 (corrected).  Strategy C's engine does finance
`max(0, price - deposit)` — in particular a deposit at least the price
yields a zero monthly repayment — but Strategy D's engine uses the
unclamped difference `price - deposit`. -/
theorem financed_principal_clamped_in_variantC (t : ℕ) (m : String)
    (p d : ℚ) (prev : LoanResults) (hp : 0 ≤ p) (hd : 0 ≤ d) :
    VariantC.principal p d = max 0 (p - d) ∧
    (p ≤ d → (VariantC.calculateLoan t m p d prev).monthlyRepayment = 0) ∧
    VariantD.principal p d = p - d := by
  refine ⟨rfl, fun hpd => ?_, rfl⟩
  by_cases h0 : p ≤ 0
  · simp only [VariantC.calculateLoan, if_pos h0]
  · have hprin : VariantC.principal p d = 0 := by
      unfold VariantC.principal
      exact max_eq_left (sub_nonpos.mpr hpd)
    simp only [VariantC.calculateLoan, if_neg h0, hprin, pmt_pv_zero]

/-- C1 witness at price 50000, deposit 80000. -/
theorem financed_principal_clamped_in_variantC_witness :
    ((0 : ℚ) ≤ 50000 ∧ (0 : ℚ) ≤ 80000) ∧
    (VariantC.principal 50000 80000 = max 0 ((50000 : ℚ) - 80000) ∧
     ((50000 : ℚ) ≤ 80000 →
       (VariantC.calculateLoan 3 "Salary Deduction" 50000 80000 initialResults).monthlyRepayment = 0) ∧
     VariantD.principal 50000 80000 = (50000 : ℚ) - 80000) :=
  ⟨⟨by norm_num, by norm_num⟩,
   financed_principal_clamped_in_variantC 3 "Salary Deduction" 50000 80000
     initialResults (by norm_num) (by norm_num)⟩

/-- C1 counterexample: at price 50000, deposit 80000, Strategy D's
financed principal is the negative -30000, not `max(0, 50000 - 80000) = 0`
as the claim states for every deposit-taking strategy. -/
theorem variantD_principal_unclamped_cex :
    VariantD.principal 50000 80000 = -30000 ∧
    max 0 ((50000 : ℚ) - 80000) = 0 ∧ ((-30000 : ℚ) ≠ 0) := by
  norm_num [VariantD.principal]

/-- C2 (corrected, amended form).  For a currency code absent from the
exchange-rate table, the MMK price computation evaluates to NaN
(`amount * undefined`); no InvalidCurrency error is raised. -/
theorem unknown_currency_conversion_is_nan (a : ℚ) (c : String)
    (h : Current.EXCHANGE_RATES c = none) :
    Current.convertToBase a c = JSNum.nan := by
  unfold Current.convertToBase
  rw [h]

/-- C2 witness at the absent code "GBP". -/
theorem unknown_currency_conversion_is_nan_witness :
    Current.EXCHANGE_RATES "GBP" = none ∧
    Current.convertToBase 7 "GBP" = JSNum.nan :=
  ⟨rfl, unknown_currency_conversion_is_nan 7 "GBP" rfl⟩

/-- C2 counterexample: "JPY" is absent from the table, and the code's
conversion returns the NaN value — its result type has no failure at
all — where the specified conversion fails with InvalidCurrency. -/
theorem unknown_currency_no_failure_cex :
    Current.EXCHANGE_RATES "JPY" = none ∧
    Current.convertToBase 1 "JPY" = JSNum.nan ∧
    toBaseCurrencySpec 1 "JPY" = Except.error ConvError.InvalidCurrency :=
  ⟨rfl, rfl, rfl⟩

/-- C3 (corrected).  On a non-positive MMK price the Strategy C variant
emits the all-zero results record, while the current variant's bare
`return` leaves the previous results record unchanged. -/
theorem nonpositive_price_short_circuit (t : ℕ) (m : String)
    (c : Current.Currency) (p d : ℚ) (prev : LoanResults) (hp : p ≤ 0) :
    VariantC.calculateLoan t m p d prev = ⟨0, 0, 0, 0, 0⟩ ∧
    Current.calculateLoan t m c p prev = prev := by
  constructor
  · simp only [VariantC.calculateLoan, if_pos hp]
  · simp only [Current.calculateLoan, if_pos hp]

/-- C3 witness at price 0. -/
theorem nonpositive_price_short_circuit_witness :
    ((0 : ℚ) ≤ 0) ∧
    (VariantC.calculateLoan 3 "Salary Deduction" 0 0 initialResults = ⟨0, 0, 0, 0, 0⟩ ∧
     Current.calculateLoan 3 "Salary Deduction" Current.Currency.MMK 0 initialResults = initialResults) :=
  ⟨le_refl 0,
   nonpositive_price_short_circuit 3 "Salary Deduction" Current.Currency.MMK 0 0
     initialResults (le_refl 0)⟩

/-- C3 counterexample: after a run at price 6200 USD (monthly repayment
12400), clearing the price to 0 leaves the current variant's results at
the stale 12400 rather than emitting a zero-valued record. -/
theorem stale_results_on_cleared_price_cex :
    (Current.calculateLoan 3 "Salary Deduction" Current.Currency.USD 0
      (Current.calculateLoan 3 "Salary Deduction" Current.Currency.USD 6200
        initialResults)).monthlyRepayment = 12400 ∧
    ((12400 : ℚ) ≠ 0) := by
  constructor
  · norm_num [Current.calculateLoan, Current.exchangeRate]
  · norm_num

/-- C4 (corrected, amended form).  The expanded 14-bracket table's
first-match admin-fee lookup is monotone in the price for each fixed
method. -/
theorem admin_fee_monotone_expanded_table (m : String) (p1 p2 : ℚ)
    (h : p1 < p2) : getAdminFee p1 m ≤ getAdminFee p2 m :=
  adminFeeLookup_mono m (le_of_lt h) adminFeeRanges
    (adminFeeRanges_pairwise m) adminFeeRanges_catchall

/-- C4 witness at prices 50000 and 150000. -/
theorem admin_fee_monotone_expanded_table_witness :
    (50000 : ℚ) < 150000 ∧
    getAdminFee 50000 "Salary Deduction" ≤ getAdminFee 150000 "Salary Deduction" :=
  ⟨by norm_num,
   admin_fee_monotone_expanded_table "Salary Deduction" 50000 150000 (by norm_num)⟩

/-- C4 counterexample: the earliest iteration's admin-fee table (also
cited by the claim) returns 0 above 100000, so the fee drops from 5000
to 0 when the price rises from 100000 to 200000 — not monotone, and its
brackets are not exhaustive. -/
theorem simple_admin_fee_not_monotone_cex :
    (100000 : ℚ) < 200000 ∧
    VariantB.getAdminFee 100000 "Salary Deduction" = 5000 ∧
    VariantB.getAdminFee 200000 "Salary Deduction" = 0 ∧
    ¬(VariantB.getAdminFee 100000 "Salary Deduction" ≤
        VariantB.getAdminFee 200000 "Salary Deduction") := by
  norm_num [VariantB.getAdminFee]

/-- C5 (corrected, amended form).  Whenever the engines compute (price
positive), the minimum salary is an exact multiple of 1000 in Strategies
C, D and E; it is at most the unrounded raw value `monthly / 0.20`
(Strategy C) and `monthly / 0.25` (Strategy D) unconditionally, and at
most `monthly * 0.25` for Strategy E whenever the monthly repayment is
positive. -/
theorem min_salary_floored_multiple_of_1000 (t : ℕ) (m : String)
    (c : Current.Currency) (p d : ℚ) (prev : LoanResults) (hp : 0 < p) :
    (∃ k : ℤ, (VariantC.calculateLoan t m p d prev).minSalaryRequirement = 1000 * (k : ℚ)) ∧
    (VariantC.calculateLoan t m p d prev).minSalaryRequirement ≤
      (VariantC.calculateLoan t m p d prev).monthlyRepayment / 0.20 ∧
    (∃ k : ℤ, (VariantD.calculateLoan t m p d prev).minSalaryRequirement = 1000 * (k : ℚ)) ∧
    (VariantD.calculateLoan t m p d prev).minSalaryRequirement ≤
      (VariantD.calculateLoan t m p d prev).monthlyRepayment / 0.25 ∧
    (∃ k : ℤ, (Current.calculateLoan t m c p prev).minSalaryRequirement = 1000 * (k : ℚ)) ∧
    (0 < (Current.calculateLoan t m c p prev).monthlyRepayment →
      (Current.calculateLoan t m c p prev).minSalaryRequirement ≤
        (Current.calculateLoan t m c p prev).monthlyRepayment * 0.25) := by
  have hnp : ¬(p ≤ 0) := not_le.mpr hp
  simp only [VariantC.calculateLoan, VariantD.calculateLoan, Current.calculateLoan,
    if_neg hnp]
  refine ⟨roundDownToNearest1000_multiple _, roundDownToNearest1000_le _,
    roundDownToNearest1000_multiple _, roundDownToNearest1000_le _, ?_, ?_⟩
  · by_cases hM : 0 < Current.exchangeRate c * (t : ℚ) - p
    · rw [if_pos hM]
      exact roundDownToNearest1000_multiple _
    · rw [if_neg hM]
      exact ⟨0, by norm_num⟩
  · intro hM
    rw [if_pos hM]
    exact roundDownToNearest1000_le _

/-- C5 witness at term 3, USD, price 6200, deposit 0. -/
theorem min_salary_floored_multiple_of_1000_witness :
    ((0 : ℚ) < 6200) ∧
    ((∃ k : ℤ, (VariantC.calculateLoan 3 "Salary Deduction" 6200 0 initialResults).minSalaryRequirement = 1000 * (k : ℚ)) ∧
     (VariantC.calculateLoan 3 "Salary Deduction" 6200 0 initialResults).minSalaryRequirement ≤
       (VariantC.calculateLoan 3 "Salary Deduction" 6200 0 initialResults).monthlyRepayment / 0.20 ∧
     (∃ k : ℤ, (VariantD.calculateLoan 3 "Salary Deduction" 6200 0 initialResults).minSalaryRequirement = 1000 * (k : ℚ)) ∧
     (VariantD.calculateLoan 3 "Salary Deduction" 6200 0 initialResults).minSalaryRequirement ≤
       (VariantD.calculateLoan 3 "Salary Deduction" 6200 0 initialResults).monthlyRepayment / 0.25 ∧
     (∃ k : ℤ, (Current.calculateLoan 3 "Salary Deduction" Current.Currency.USD 6200 initialResults).minSalaryRequirement = 1000 * (k : ℚ)) ∧
     (0 < (Current.calculateLoan 3 "Salary Deduction" Current.Currency.USD 6200 initialResults).monthlyRepayment →
       (Current.calculateLoan 3 "Salary Deduction" Current.Currency.USD 6200 initialResults).minSalaryRequirement ≤
         (Current.calculateLoan 3 "Salary Deduction" Current.Currency.USD 6200 initialResults).monthlyRepayment * 0.25)) :=
  ⟨by norm_num,
   min_salary_floored_multiple_of_1000 3 "Salary Deduction" Current.Currency.USD
     6200 0 initialResults (by norm_num)⟩

/-- C5 counterexample: Strategy E at 100000 MMK, term 3, gives monthly
repayment -99997 and minimum salary 0, and 0 exceeds the raw value
`monthly * 0.25 = -24999.25` — the claimed bound fails on ineligible
inputs. -/
theorem strategyE_min_salary_above_raw_cex :
    (Current.calculateLoan 3 "Salary Deduction" Current.Currency.MMK 100000
      initialResults).monthlyRepayment = -99997 ∧
    (Current.calculateLoan 3 "Salary Deduction" Current.Currency.MMK 100000
      initialResults).minSalaryRequirement = 0 ∧
    ¬((Current.calculateLoan 3 "Salary Deduction" Current.Currency.MMK 100000
        initialResults).minSalaryRequirement ≤
      (Current.calculateLoan 3 "Salary Deduction" Current.Currency.MMK 100000
        initialResults).monthlyRepayment * 0.25) := by
  refine ⟨?_, ?_, ?_⟩ <;>
    norm_num [Current.calculateLoan, Current.exchangeRate]

/-- C6 (confirmed).  Strategy E end-to-end at currency USD (rate 6200),
term 3, price 1: the MMK principal is 6200, the monthly repayment is
6200 * 3 - 6200 = 12400 > 0 (eligible), and the minimum salary is
floor(12400 * 0.25 / 1000) * 1000 = 3000. -/
theorem strategyE_usd_example :
    Current.convertToBase 1 "USD" = JSNum.num 6200 ∧
    (Current.calculateLoan 3 "Salary Deduction" Current.Currency.USD 6200
      initialResults).monthlyRepayment = 12400 ∧
    ((0 : ℚ) < 12400) ∧
    (Current.calculateLoan 3 "Salary Deduction" Current.Currency.USD 6200
      initialResults).minSalaryRequirement = 3000 := by
  refine ⟨?_, ?_, by norm_num, ?_⟩
  · have h : Current.EXCHANGE_RATES "USD" = some 6200 := rfl
    unfold Current.convertToBase
    rw [h]
    norm_num
  · norm_num [Current.calculateLoan, Current.exchangeRate]
  · norm_num [Current.calculateLoan, Current.exchangeRate, roundDownToNearest1000]

/-- C7 (corrected, amended form).  For a term outside the two covered
ranges [3,6] and [9,12] (the combinations with no defined rate entry),
the rate lookup resolves to 0 without failing, and the PMT-based D
variant's monthly repayment degenerates to the zero-interest division of
the principal by the term. -/
theorem rate_fallback_zero_and_flat_division (t : ℕ) (m : String)
    (p d : ℚ) (prev : LoanResults) (ht : 1 ≤ t)
    (hout : t < 3 ∨ (6 < t ∧ t < 9) ∨ 12 < t) :
    getDeductionRate t m = 0 ∧
    (0 < p → (VariantD.calculateLoan t m p d prev).monthlyRepayment = (p - d) / (t : ℚ)) := by
  have h1 : ¬(3 ≤ t ∧ t ≤ 6) := by omega
  have h2 : ¬(9 ≤ t ∧ t ≤ 12) := by omega
  have hrate : getDeductionRate t m = 0 := by
    unfold getDeductionRate
    rw [if_neg h1, if_neg h2]
  refine ⟨hrate, fun hp => ?_⟩
  simp only [VariantD.calculateLoan, if_neg (not_le.mpr hp), hrate,
    VariantD.principal, zero_div, eq_self_iff_true, if_true]

/-- C7 witness at term 2 (below the first range), price 100, deposit 0. -/
theorem rate_fallback_zero_and_flat_division_witness :
    (1 ≤ 2 ∧ (2 < 3 ∨ (6 < 2 ∧ 2 < 9) ∨ 12 < 2)) ∧
    (getDeductionRate 2 "Salary Deduction" = 0 ∧
     (0 < (100 : ℚ) →
       (VariantD.calculateLoan 2 "Salary Deduction" 100 0 initialResults).monthlyRepayment =
         ((100 : ℚ) - 0) / ((2 : ℕ) : ℚ))) :=
  ⟨⟨by omega, by omega⟩,
   rate_fallback_zero_and_flat_division 2 "Salary Deduction" 100 0 initialResults
     (by omega) (by omega)⟩

/-- C7 counterexample: term 4 is outside the enumerated set {3, 6, 9, 12}
— a pair the claim calls "no defined rate entry" — yet the range-based
lookup resolves it to 0.0376, not 0. -/
theorem rate_lookup_nonzero_outside_enumerated_cex :
    ((4 : ℕ) ≠ 3 ∧ (4 : ℕ) ≠ 6 ∧ (4 : ℕ) ≠ 9 ∧ (4 : ℕ) ≠ 12) ∧
    getDeductionRate 4 "Salary Deduction" = 0.0376 ∧ ((0.0376 : ℚ) ≠ 0) := by
  refine ⟨by omega, ?_, by norm_num⟩
  norm_num [getDeductionRate]

/-- C8 (confirmed).  The Strategy C annuity helper at rate exactly 0 and
a nonzero term returns the plain division `pv / term`. -/
theorem pmt_zero_rate_exact_division (pv : ℚ) (t : ℕ) (hpv : 0 ≤ pv)
    (ht : t ≠ 0) : VariantC.pmt 0 t pv = pv / (t : ℚ) := by
  unfold VariantC.pmt
  rw [if_neg ht, if_pos rfl]

/-- C8 witness at principal 100, term 4. -/
theorem pmt_zero_rate_exact_division_witness :
    ((0 : ℚ) ≤ 100 ∧ (4 : ℕ) ≠ 0) ∧
    VariantC.pmt 0 4 100 = 100 / ((4 : ℕ) : ℚ) :=
  ⟨⟨by norm_num, by norm_num⟩,
   pmt_zero_rate_exact_division 100 4 (by norm_num) (by norm_num)⟩

/-- C9 (confirmed).  In the current Strategy E variant, two runs that
differ only in the repayment method agree on the monthly repayment and
on the minimum salary requirement: neither computation reads the
method. -/
theorem strategyE_method_irrelevant_monthly_salary (t : ℕ)
    (c : Current.Currency) (p : ℚ) (prev : LoanResults) (m1 m2 : String) :
    (Current.calculateLoan t m1 c p prev).monthlyRepayment =
      (Current.calculateLoan t m2 c p prev).monthlyRepayment ∧
    (Current.calculateLoan t m1 c p prev).minSalaryRequirement =
      (Current.calculateLoan t m2 c p prev).minSalaryRequirement := by
  unfold Current.calculateLoan
  split_ifs <;> exact ⟨rfl, rfl⟩

/-- C10 (confirmed).  At any non-negative price, both admin-fee tables
charge "Salary Deduction" at most what they charge any other method
string (the code treats every other method as the Yoma column). -/
theorem salary_fee_le_other_methods (p : ℚ) (m : String) (hp : 0 ≤ p)
    (hm : m ≠ "Salary Deduction") :
    getAdminFee p "Salary Deduction" ≤ getAdminFee p m ∧
    VariantB.getAdminFee p "Salary Deduction" ≤ VariantB.getAdminFee p m := by
  constructor
  · exact adminFeeLookup_salary_le p m hm adminFeeRanges adminFeeRanges_salary_le_yoma
  · unfold VariantB.getAdminFee
    by_cases h : p ≤ 100000
    · rw [if_pos h, if_pos h, if_pos rfl, if_neg hm]
      norm_num
    · rw [if_neg h, if_neg h]

/-- C10 witness at price 0 and method "Yoma Bank Deduction". -/
theorem salary_fee_le_other_methods_witness :
    ((0 : ℚ) ≤ 0 ∧ "Yoma Bank Deduction" ≠ "Salary Deduction") ∧
    (getAdminFee 0 "Salary Deduction" ≤ getAdminFee 0 "Yoma Bank Deduction" ∧
     VariantB.getAdminFee 0 "Salary Deduction" ≤ VariantB.getAdminFee 0 "Yoma Bank Deduction") :=
  ⟨⟨le_refl 0, by decide⟩,
   salary_fee_le_other_methods 0 "Yoma Bank Deduction" (le_refl 0) (by decide)⟩
